import Mathlib

/-!
Shallow embedding of the xmltv repository's normalization layer: the
tolerant EPG extractor and XMLTV builder of src/service/fuel/main.py, and
the grid-data pipelines of src/scripts/gracenote.py and
src/scripts/gracenote_to_xmltv.py.  XML elements are modelled as rose
trees mirroring Python ElementTree; Python dicts with optional keys are
modelled as structures of Option fields; Python truthiness on strings,
optional strings and optional integers is made explicit.
-/

/-- An XML element as in Python ElementTree: a tag, an ordered attribute
list, its text (the empty string standing for absent text), and its list
of child elements. -/
inductive Elem : Type where
  | mk (tag : String) (attrs : List (String × String)) (text : String) (children : List Elem)

/-- Tag of an element. -/
def Elem.tag : Elem → String
  | .mk t _ _ _ => t

/-- Attribute list of an element. -/
def Elem.attrs : Elem → List (String × String)
  | .mk _ a _ _ => a

/-- Text of an element (empty string when the element has no text). -/
def Elem.text : Elem → String
  | .mk _ _ x _ => x

/-- Child elements of an element. -/
def Elem.children : Elem → List Elem
  | .mk _ _ _ cs => cs

/-- Attribute lookup with a default, Python elem.get(name, dflt). -/
def Elem.get (e : Elem) (name dflt : String) : String :=
  match e.attrs.lookup name with
  | some v => v
  | none => dflt

/-- Does the element carry an attribute of the given name. -/
def Elem.hasAttr (e : Elem) (name : String) : Bool :=
  e.attrs.any (fun p => p.1 == name)

/-- First direct child with the given tag, Python elem.find(tag). -/
def Elem.find (e : Elem) (t : String) : Option Elem :=
  e.children.find? (fun c => c.tag == t)

mutual

/-- All strict descendants of an element in document order. -/
def Elem.descendants : Elem → List Elem
  | .mk _ _ _ cs => descList cs

/-- Descendant-or-self lists of a list of elements, concatenated in order. -/
def descList : List Elem → List Elem
  | [] => []
  | c :: cs => (c :: c.descendants) ++ descList cs

end

/-- All elements of the subtree rooted at e, e itself first: Python
elem.iter(). -/
def Elem.allNodes (e : Elem) : List Elem :=
  e :: e.descendants

/-- All descendants with the given tag, Python root.findall with a
descendant path: the root itself is not included. -/
def Elem.findallDesc (e : Elem) (t : String) : List Elem :=
  e.descendants.filter (fun c => c.tag == t)

/-- Python `a or b` on two optional strings: the first operand when it is
truthy (present and non-empty), otherwise the second operand unchanged. -/
def pyOr (a b : Option String) : Option String :=
  match a with
  | some s => if s ≠ "" then some s else b
  | none => b

/-- Python str() applied to an optional string: None renders as "None". -/
def pyStr : Option String → String
  | some s => s
  | none => "None"

/-- Python truthiness of an optional string: truthy iff present and
non-empty. -/
def truthyStr : Option String → Bool
  | some s => s ≠ ""
  | none => false

/-- Python truthiness of an optional integer: 0 and None are falsy. -/
def truthyInt : Option Int → Bool
  | some n => n ≠ 0
  | none => false

namespace Fuel

/-- Raw program record built by parse_programs in src/service/fuel/main.py
(keys start, stop, title, desc; absent values are the empty string, as in
the source's defaults). -/
structure ProgramData where
  start : String
  stop : String
  title : String
  desc : String
deriving DecidableEq

/-- Method 1 of parse_programs: one record per programme element — start
and stop verbatim from attributes, title from the title child (trimmed,
only when its text is truthy), desc from a desc child or, failing that, a
description child. -/
def extractProgramme (prog : Elem) : ProgramData :=
  let pd0 : ProgramData :=
    { start := prog.get "start" "", stop := prog.get "stop" "", title := "", desc := "" }
  let title :=
    match prog.find "title" with
    | some t => if t.text ≠ "" then t.text.trim else ""
    | none => ""
  let descElem :=
    match prog.find "desc" with
    | some d => some d
    | none => prog.find "description"
  let desc :=
    match descElem with
    | some d => if d.text ≠ "" then d.text.trim else ""
    | none => ""
  { pd0 with title := title, desc := desc }

/-- Method 2 of parse_programs: one record per item element — title and
description from child tags, the raw pubDate text placed verbatim into
start, stop left empty. -/
def extractItem (item : Elem) : ProgramData :=
  let title :=
    match item.find "title" with
    | some t => if t.text ≠ "" then t.text.trim else ""
    | none => ""
  let desc :=
    match item.find "description" with
    | some d => if d.text ≠ "" then d.text.trim else ""
    | none => ""
  let start :=
    match item.find "pubDate" with
    | some p => if p.text ≠ "" then p.text.trim else ""
    | none => ""
  { start := start, stop := "", title := title, desc := desc }

/-- Method 3 candidate test: the tag ends with program or show. -/
def isProgramLike (e : Elem) : Bool :=
  e.tag.endsWith "program" || e.tag.endsWith "show"

/-- Method 3 of parse_programs: start from the start attribute, defaulting
to begin; stop from stop, defaulting to end; title and desc scanned over
the children by tag suffix; the candidate is kept only when its title is
non-empty. -/
def extractGeneric (e : Elem) : Option ProgramData :=
  let pd0 : ProgramData :=
    { start := e.get "start" (e.get "begin" ""),
      stop := e.get "stop" (e.get "end" ""), title := "", desc := "" }
  let pd := e.children.foldl (fun pd child =>
    if child.tag.endsWith "title" || child.tag.endsWith "name" then
      if child.text ≠ "" then { pd with title := child.text.trim } else pd
    else if child.tag.endsWith "desc" || child.tag.endsWith "description" then
      if child.text ≠ "" then { pd with desc := child.text.trim } else pd
    else pd) pd0
  if pd.title ≠ "" then some pd else none

/-- The extractor parse_programs of src/service/fuel/main.py: three shapes
tried in strict priority order, each used only when every earlier shape
yielded nothing (the language argument is accepted and unused, as in the
source). -/
def parse_programs (xml_root : Elem) (language : String) : List ProgramData :=
  let programs := (xml_root.findallDesc "programme").map extractProgramme
  let programs :=
    if programs.isEmpty then (xml_root.findallDesc "item").map extractItem else programs
  let programs :=
    if programs.isEmpty then
      (xml_root.allNodes.filter isProgramLike).filterMap extractGeneric
    else programs
  programs

/-- Per-channel entry of the all_channels_data list consumed by
create_xmltv_output. -/
structure ChannelInfo where
  channel_id : String
  display_name : String
  language : String
  programs : List ProgramData
deriving DecidableEq

/-- Channel element emitted by create_xmltv_output. -/
def channelElem (channel_id display_name : String) : Elem :=
  .mk "channel" [("id", channel_id)] "" [.mk "display-name" [] display_name []]

/-- Programme element emitted by create_xmltv_output for a titled program:
sentinel start and stop substituted when the fields are empty, lang set
unconditionally on title and on the optional desc. -/
def programmeElem (channel_id language : String) (program : ProgramData) : Elem :=
  let start_time := if program.start ≠ "" then program.start else "20000101000000"
  let stop_time := if program.stop ≠ "" then program.stop else "20000101010000"
  let descChildren : List Elem :=
    if program.desc ≠ "" then [.mk "desc" [("lang", language)] program.desc []] else []
  .mk "programme"
    [("start", start_time), ("stop", stop_time), ("channel", channel_id)] ""
    (.mk "title" [("lang", language)] program.title [] :: descChildren)

/-- The builder create_xmltv_output of src/service/fuel/main.py: for each
channel entry, its channel element followed by one programme element per
program whose title is non-empty. -/
def create_xmltv_output (all_channels_data : List ChannelInfo) : Elem :=
  .mk "tv"
    [("source-info-name", "Bitcentral, Inc."),
     ("source-info-url", "https://bitcentral.com"),
     ("generator-info-name", "FUEL EPG Generator")] ""
    (all_channels_data.flatMap (fun ci =>
      channelElem ci.channel_id ci.display_name ::
        (ci.programs.filter (fun p => p.title != "")).map
          (programmeElem ci.channel_id ci.language)))

end Fuel

namespace Gracenote

/-- Channel dict from channels.json as read by scripts/gracenote.py:
absent keys are none.  Only the keys the extractor and the builder read
are kept; the fetch-payload keys (lineup_id, headend_id, country, postal,
device) feed only the excluded HTTP collaborator. -/
structure ChannelData where
  xmltv_id : Option String
  site_id : Option String
  name : Option String
  language : Option String
deriving DecidableEq

/-- Nested program dict of one grid entry (absent keys are none). -/
structure ProgramInfo where
  title : Option String
  episodeTitle : Option String
  shortDesc : Option String
  season : Option Int
  episode : Option Int
deriving DecidableEq

/-- One entry of a dated grid array: epoch timestamps, the nested program
dict, and an optional rating. -/
structure GridProgram where
  startTime : Option Int
  endTime : Option Int
  program : Option ProgramInfo
  rating : Option String
deriving DecidableEq

/-- A grid response: a JSON mapping from ISO date strings to arrays of
grid programs, modelled as an association list. -/
abbrev Grid := List (String × List GridProgram)

/-- Python dict get with an empty-list default on a grid mapping. -/
def gridGet (g : Grid) (key : String) : List GridProgram :=
  match g.lookup key with
  | some v => v
  | none => []

/-- Program entry built by the per-program loop body of process_channel in
scripts/gracenote.py.  The Python key named end is a Lean keyword and is
rendered end_. -/
structure ProgramEntry where
  start : String
  end_ : String
  channel_id : Option String
  title : String
  episode_title : Option String
  description : Option String
  season : Option Int
  episode : Option Int
  rating : Option String
  language : Option String
deriving DecidableEq

/-- Body of the per-program loop of process_channel: a missing startTime
or endTime makes datetime.fromtimestamp raise, and the per-item except
clause then skips the entry; the machine-local strftime rendering of an
epoch second is the parameter fmt. -/
def processProgram (fmt : Int → String) (channel_data : ChannelData)
    (program : GridProgram) : Option ProgramEntry :=
  match program.startTime, program.endTime with
  | some st, some et =>
      let prog_info := program.program.getD ⟨none, none, none, none, none⟩
      some
        { start := fmt st,
          end_ := fmt et,
          channel_id := pyOr channel_data.xmltv_id channel_data.site_id,
          title := prog_info.title.getD "Unknown",
          episode_title := prog_info.episodeTitle,
          description := prog_info.shortDesc,
          season := prog_info.season,
          episode := prog_info.episode,
          rating := program.rating,
          language := channel_data.language }
  | _, _ => none

/-- The per-channel driver process_channel of scripts/gracenote.py: for
each date of the window, a falsy fetch result (None or an empty mapping)
is skipped, otherwise the array under that exact date key is processed
entry by entry. -/
def process_channel (fmt : Int → String) (fetch : String → Option Grid)
    (channel_data : ChannelData) (dates : List String) : List ProgramEntry :=
  dates.flatMap (fun date_str =>
    match fetch date_str with
    | none => []
    | some program_data =>
        if program_data.isEmpty then []
        else (gridGet program_data date_str).filterMap (processProgram fmt channel_data))

/-- Channel element emitted by create_xmltv of scripts/gracenote.py: every
channel is emitted, its id the str() of the resolved xmltv_id-or-site_id
(so an absent id renders as the string None). -/
def channelElem (channel : ChannelData) : Elem :=
  .mk "channel" [("id", pyStr (pyOr channel.xmltv_id channel.site_id))] ""
    [.mk "display-name" [] (channel.name.getD "Unknown") []]

/-- Conditional lang attribute: attached only when the language is truthy. -/
def langAttr : Option String → List (String × String)
  | some s => if s ≠ "" then [("lang", s)] else []
  | none => []

/-- Programme element emitted by create_xmltv of scripts/gracenote.py:
sub-title, desc and rating only when truthy, and both episode-num
encodings whenever season and episode are both not None (an is-not-None
test, not a truthiness test). -/
def programmeElem (program : ProgramEntry) : Elem :=
  let subTitle : List Elem :=
    if truthyStr program.episode_title then
      [.mk "sub-title" (langAttr program.language) (program.episode_title.getD "") []]
    else []
  let descE : List Elem :=
    if truthyStr program.description then
      [.mk "desc" (langAttr program.language) (program.description.getD "") []]
    else []
  let epNums : List Elem :=
    match program.season, program.episode with
    | some s, some e =>
        [.mk "episode-num" [("system", "xmltv_ns")]
           (toString s ++ "." ++ toString e ++ ".0") [],
         .mk "episode-num" [("system", "onscreen")]
           ("S" ++ toString s ++ "E" ++ toString e) []]
    | _, _ => []
  let ratingE : List Elem :=
    if truthyStr program.rating then
      [.mk "rating" [] "" [.mk "value" [] (program.rating.getD "") []]]
    else []
  .mk "programme"
    [("start", program.start ++ " +0000"), ("stop", program.end_ ++ " +0000"),
     ("channel", pyStr program.channel_id)] ""
    (.mk "title" (langAttr program.language) program.title []
      :: (subTitle ++ descE ++ epNums ++ ratingE))

/-- The builder create_xmltv of scripts/gracenote.py: all channel elements
first, then all programme elements. -/
def create_xmltv (channels : List ChannelData) (programs : List ProgramEntry) : Elem :=
  .mk "tv"
    [("source-info-name", "Gracenote TV Listings"),
     ("source-info-url", "https://tvlistings.gracenote.com"),
     ("generator-info-name", "Gracenote TV Converter")] ""
    (channels.map channelElem ++ programs.map programmeElem)

end Gracenote

namespace GracenoteX

/-- Channel dict built by parse_channels_file of
scripts/gracenote_to_xmltv.py (the site_id-derived fetch keys feed only
the excluded HTTP collaborator and are omitted). -/
structure Channel where
  name : Option String
  lang : Option String
  xmltv_id : Option String
  site_id : Option String
deriving DecidableEq

/-- Program dict built by parse_programs of
scripts/gracenote_to_xmltv.py. -/
structure Prog where
  start : String
  stop : String
  channel_id : Option String
  title : String
  short_desc : Option String
  rating : Option String
  season : Option Int
  episode : Option Int
  episode_title : Option String
  lang : Option String
deriving DecidableEq

/-- Channel element emitted by create_xmltv of
scripts/gracenote_to_xmltv.py for a channel whose resolved id is truthy. -/
def channelElem (channel : Channel) : Elem :=
  .mk "channel" [("id", (pyOr channel.xmltv_id channel.site_id).getD "")] ""
    [.mk "display-name" [] (channel.name.getD "") []]

/-- Channel-loop of create_xmltv of scripts/gracenote_to_xmltv.py: a
channel whose resolved xmltv_id-or-site_id is falsy is skipped. -/
def channelElems (channels : List Channel) : List Elem :=
  channels.flatMap (fun channel =>
    if truthyStr (pyOr channel.xmltv_id channel.site_id) then [channelElem channel]
    else [])

/-- Programme element emitted by create_xmltv of
scripts/gracenote_to_xmltv.py: episode-num pairs are emitted under a
truthiness test of season and episode, so a zero season or episode
suppresses them. -/
def programmeElem (program : Prog) : Elem :=
  let subTitle : List Elem :=
    if truthyStr program.episode_title then
      [.mk "sub-title" (Gracenote.langAttr program.lang) (program.episode_title.getD "") []]
    else []
  let descE : List Elem :=
    if truthyStr program.short_desc then
      [.mk "desc" (Gracenote.langAttr program.lang) (program.short_desc.getD "") []]
    else []
  let epNums : List Elem :=
    if truthyInt program.season && truthyInt program.episode then
      [.mk "episode-num" [("system", "xmltv_ns")]
         (toString (program.season.getD 0) ++ "." ++ toString (program.episode.getD 0) ++ ".0") [],
       .mk "episode-num" [("system", "onscreen")]
         ("S" ++ toString (program.season.getD 0) ++ "E" ++ toString (program.episode.getD 0)) []]
    else []
  let ratingE : List Elem :=
    if truthyStr program.rating then
      [.mk "rating" [] "" [.mk "value" [] (program.rating.getD "") []]]
    else []
  .mk "programme"
    [("start", program.start ++ " +0000"), ("stop", program.stop ++ " +0000"),
     ("channel", program.channel_id.getD "")] ""
    (.mk "title" (Gracenote.langAttr program.lang) program.title []
      :: (subTitle ++ descE ++ epNums ++ ratingE))

/-- The builder create_xmltv of scripts/gracenote_to_xmltv.py: the
filtered channel elements first, then the programme elements of every
per-channel list in order. -/
def create_xmltv (channels : List Channel) (all_programs : List (List Prog)) : Elem :=
  .mk "tv"
    [("source-info-name", "Gracenote TV Listings"),
     ("source-info-url", "https://tvlistings.gracenote.com"),
     ("generator-info-name", "Gracenote TV Converter")] ""
    (channelElems channels ++ all_programs.flatMap (fun l => l.map programmeElem))

end GracenoteX

/-- Does every channel tag precede every programme tag: no channel tag
occurs after a programme tag in the list. -/
def channelsBeforeProgrammes : List String → Bool
  | [] => true
  | t :: rest =>
      ((t != "programme") || rest.all (fun u => u != "channel"))
        && channelsBeforeProgrammes rest

/-- Text of the title child of a programme element (empty when absent). -/
def titleText (pr : Elem) : String :=
  match pr.find "title" with
  | some t => t.text
  | none => ""

/-- Texts of the episode-num children of a programme element, in order. -/
def episodeNumTexts (pr : Elem) : List String :=
  (pr.children.filter (fun c => c.tag == "episode-num")).map Elem.text

/-- Date part of a wire timestamp string YYYYMMDDHHMMSS, as its first
eight characters. -/
def wireDate (s : String) : List Char := s.data.take 8

/-- Numeric value of a two-digit character pair. -/
def digits2 (a b : Char) : Nat := (a.toNat - 48) * 10 + (b.toNat - 48)

/-- Seconds into the day denoted by the HHMMSS part of a wire timestamp
string YYYYMMDDHHMMSS (zero on any other shape). -/
def wireTimeSecs (s : String) : Nat :=
  match s.data with
  | [_, _, _, _, _, _, _, _, h1, h2, m1, m2, s1, s2] =>
      digits2 h1 h2 * 3600 + digits2 m1 m2 * 60 + digits2 s1 s2
  | _ => 0


/-! Helper lemmas about tags of emitted elements and the ordering
predicate. -/

theorem cbp_of_no_channel : ∀ {tags : List String},
    tags.all (fun t => t != "channel") = true → channelsBeforeProgrammes tags = true := by
  intro tags
  induction tags with
  | nil => intro _; rfl
  | cons t rest ih =>
      intro h
      rw [List.all_cons] at h
      obtain ⟨_, hrest⟩ := (Bool.and_eq_true _ _).mp h
      simp [channelsBeforeProgrammes, hrest, ih hrest]

theorem cbp_split (xs ys : List String)
    (hx : xs.all (fun t => t != "programme") = true)
    (hy : ys.all (fun t => t != "channel") = true) :
    channelsBeforeProgrammes (xs ++ ys) = true := by
  induction xs with
  | nil => simpa using cbp_of_no_channel hy
  | cons t xs ih =>
      rw [List.all_cons] at hx
      obtain ⟨ht, hxs⟩ := (Bool.and_eq_true _ _).mp hx
      simp [channelsBeforeProgrammes, ht, ih hxs]

theorem tag_channelElemG (c : Gracenote.ChannelData) :
    (Gracenote.channelElem c).tag = "channel" := rfl

theorem tag_programmeElemG (p : Gracenote.ProgramEntry) :
    (Gracenote.programmeElem p).tag = "programme" := rfl

theorem tag_channelElemX (c : GracenoteX.Channel) :
    (GracenoteX.channelElem c).tag = "channel" := rfl

theorem tag_programmeElemX (p : GracenoteX.Prog) :
    (GracenoteX.programmeElem p).tag = "programme" := rfl

theorem tag_channelElemF (cid dn : String) :
    (Fuel.channelElem cid dn).tag = "channel" := rfl

theorem tag_programmeElemF (cid lang : String) (p : Fuel.ProgramData) :
    (Fuel.programmeElem cid lang p).tag = "programme" := rfl


theorem all_tags_channelG (chs : List Gracenote.ChannelData) :
    ((chs.map Gracenote.channelElem).map Elem.tag).all (fun t => t != "programme") = true := by
  rw [List.all_eq_true]
  intro t ht
  rw [List.map_map, List.mem_map] at ht
  obtain ⟨c, _, rfl⟩ := ht
  rfl

theorem all_tags_programmeG (ps : List Gracenote.ProgramEntry) :
    ((ps.map Gracenote.programmeElem).map Elem.tag).all (fun t => t != "channel") = true := by
  rw [List.all_eq_true]
  intro t ht
  rw [List.map_map, List.mem_map] at ht
  obtain ⟨p, _, rfl⟩ := ht
  rfl

theorem all_tags_channelX (chs : List GracenoteX.Channel) :
    ((GracenoteX.channelElems chs).map Elem.tag).all (fun t => t != "programme") = true := by
  rw [List.all_eq_true]
  intro t ht
  rw [List.mem_map] at ht
  obtain ⟨e, he, rfl⟩ := ht
  rw [GracenoteX.channelElems, List.mem_flatMap] at he
  obtain ⟨c, _, he⟩ := he
  by_cases h : truthyStr (pyOr c.xmltv_id c.site_id) = true
  · rw [if_pos h] at he
    rw [List.mem_singleton] at he
    subst he
    rfl
  · rw [if_neg h] at he
    exact absurd he (List.not_mem_nil e)

theorem all_tags_programmeX (pss : List (List GracenoteX.Prog)) :
    ((pss.flatMap (fun l => l.map GracenoteX.programmeElem)).map Elem.tag).all
      (fun t => t != "channel") = true := by
  rw [List.all_eq_true]
  intro t ht
  rw [List.mem_map] at ht
  obtain ⟨e, he, rfl⟩ := ht
  rw [List.mem_flatMap] at he
  obtain ⟨l, _, he⟩ := he
  rw [List.mem_map] at he
  obtain ⟨p, _, rfl⟩ := he
  rfl

theorem map_tag_programmeF (cid lang : String) (l : List Fuel.ProgramData) :
    (l.map (Fuel.programmeElem cid lang)).map Elem.tag = l.map (fun _ => "programme") := by
  induction l with
  | nil => rfl
  | cons a t iht =>
      simp only [List.map_cons]
      rw [iht]
      rfl

theorem fuel_children_tags (data : List Fuel.ChannelInfo) :
    (Fuel.create_xmltv_output data).children.map Elem.tag
      = data.flatMap (fun ci =>
          "channel" ::
            (ci.programs.filter (fun p => p.title != "")).map (fun _ => "programme")) := by
  induction data with
  | nil => rfl
  | cons ci rest ih =>
      show (Fuel.channelElem ci.channel_id ci.display_name ::
          (ci.programs.filter (fun p => p.title != "")).map
            (Fuel.programmeElem ci.channel_id ci.language)
          ++ (Fuel.create_xmltv_output rest).children).map Elem.tag = _
      simp only [List.flatMap_cons, List.cons_append, List.map_cons, List.map_append]
      rw [ih, map_tag_programmeF]
      rfl

/-- C1 (amended): in the builders of scripts/gracenote.py and
scripts/gracenote_to_xmltv.py every channel element precedes every
programme element; in the builder of src/service/fuel/main.py the
children of the tv root are instead grouped per channel — each channel
element directly followed by the programme elements of that channel's
titled programs — so a channel element can follow programme elements of
an earlier channel. -/
theorem c1_channel_order_amended :
    (∀ (channels : List Gracenote.ChannelData) (programs : List Gracenote.ProgramEntry),
        channelsBeforeProgrammes
          ((Gracenote.create_xmltv channels programs).children.map Elem.tag) = true) ∧
    (∀ (channels : List GracenoteX.Channel) (all_programs : List (List GracenoteX.Prog)),
        channelsBeforeProgrammes
          ((GracenoteX.create_xmltv channels all_programs).children.map Elem.tag) = true) ∧
    (∀ (data : List Fuel.ChannelInfo),
        (Fuel.create_xmltv_output data).children.map Elem.tag
          = data.flatMap (fun ci =>
              "channel" ::
                (ci.programs.filter (fun p => p.title != "")).map (fun _ => "programme"))) := by
  refine ⟨?_, ?_, fuel_children_tags⟩
  · intro channels programs
    show channelsBeforeProgrammes
      ((channels.map Gracenote.channelElem ++ programs.map Gracenote.programmeElem).map
        Elem.tag) = true
    rw [List.map_append]
    exact cbp_split _ _ (all_tags_channelG channels) (all_tags_programmeG programs)
  · intro channels all_programs
    show channelsBeforeProgrammes
      ((GracenoteX.channelElems channels
          ++ all_programs.flatMap (fun l => l.map GracenoteX.programmeElem)).map
        Elem.tag) = true
    rw [List.map_append]
    exact cbp_split _ _ (all_tags_channelX channels) (all_tags_programmeX all_programs)

/-- C1 (counterexample): for the fuel builder applied to two channels
where the first carries one titled program, the child tags of the tv root
are channel, programme, channel — a channel element follows a programme
element, refuting the claim that every channel element precedes every
programme element in every builder of the repository. -/
theorem c1_channel_order_counterexample :
    ¬ (channelsBeforeProgrammes
        ((Fuel.create_xmltv_output
            [{ channel_id := "a", display_name := "A", language := "en",
               programs := [{ start := "1", stop := "2", title := "P", desc := "" }] },
             { channel_id := "b", display_name := "B", language := "en",
               programs := [] }]).children.map Elem.tag) = true) := by
  decide

/-- C2: for a parsed document holding at least one programme element and
at least one item element, parse_programs returns exactly the records
extracted from the programme elements — the item elements contribute
nothing, by the strict priority of the programme-tag shape. -/
theorem c2_shape_priority (root : Elem) (language : String)
    (hprog : (root.findallDesc "programme").isEmpty = false)
    (hitem : (root.findallDesc "item").isEmpty = false) :
    Fuel.parse_programs root language
      = (root.findallDesc "programme").map Fuel.extractProgramme := by
  unfold Fuel.parse_programs
  rw [List.isEmpty_eq_false_iff_exists_mem] at hprog
  obtain ⟨e, he⟩ := hprog
  have h1 : ((root.findallDesc "programme").map Fuel.extractProgramme).isEmpty = false := by
    cases h : root.findallDesc "programme" with
    | nil => rw [h] at he; exact absurd he (List.not_mem_nil e)
    | cons a l => rfl
  simp [h1]

/-- C2 (witness): a concrete document with one programme element and one
item element extracts exactly the programme-shape record. -/
theorem c2_shape_priority_witness :
    Fuel.parse_programs
        (Elem.mk "rss" [] ""
          [Elem.mk "programme" [("start", "20240101000000"), ("stop", "20240101010000")] ""
            [Elem.mk "title" [] "Show A" []],
           Elem.mk "item" [] "" [Elem.mk "title" [] "Item B" []]]) "en"
      = ((Elem.mk "rss" [] ""
          [Elem.mk "programme" [("start", "20240101000000"), ("stop", "20240101010000")] ""
            [Elem.mk "title" [] "Show A" []],
           Elem.mk "item" [] "" [Elem.mk "title" [] "Item B" []]]).findallDesc
            "programme").map Fuel.extractProgramme :=
  c2_shape_priority _ "en" (by decide) (by decide)

/-- C3: when no programme element, no item element, and no generic
program-or-show-tagged candidate with a non-empty title exists in the
parsed document, parse_programs returns the empty list — it is a total
function, so absence of data never raises. -/
theorem c3_empty_extraction (root : Elem) (language : String)
    (h1 : (root.findallDesc "programme").isEmpty = true)
    (h2 : (root.findallDesc "item").isEmpty = true)
    (h3 : ((root.allNodes.filter Fuel.isProgramLike).filterMap
        Fuel.extractGeneric).isEmpty = true) :
    Fuel.parse_programs root language = [] := by
  unfold Fuel.parse_programs
  rw [List.isEmpty_iff] at h1 h2 h3
  simp [h1, h2, h3]

/-- C3 (witness): the empty document extracts the empty list. -/
theorem c3_empty_extraction_witness :
    Fuel.parse_programs (Elem.mk "rss" [] "" []) "en" = [] :=
  c3_empty_extraction _ "en" (by decide) (by decide) (by decide)

/-- C4 (counterexample): the sentinel pair substituted by the builder of
src/service/fuel/main.py for empty start and stop fields lies on the day
2000-01-01, not on the Unix epoch-zero day 1970-01-01 as the claim
states: the emitted sentinel start of a titled program with empty
timestamps is 20000101000000, whose date part differs from 19700101. -/
theorem c4_sentinel_times_counterexample :
    (Fuel.programmeElem "c1" "en"
        { start := "", stop := "", title := "X", desc := "" }).get "start" ""
      = "20000101000000" ∧
    (Fuel.programmeElem "c1" "en"
        { start := "", stop := "", title := "X", desc := "" }).get "stop" ""
      = "20000101010000" ∧
    ¬ (wireDate ((Fuel.programmeElem "c1" "en"
        { start := "", stop := "", title := "X", desc := "" }).get "start" "")
      = "19700101".data) := by
  refine ⟨rfl, rfl, ?_⟩
  decide

/-- C4 (amended): every titled program of a channel entry yields a
programme element among the children of the tv root, complete with start,
stop and channel attributes and a title child; an empty start field is
replaced by the sentinel 20000101000000 and an empty stop field by
20000101010000 — a fixed pair lying on the day 2000-01-01 (not the Unix
epoch-zero day) — and the sentinel stop lies on that same day exactly one
hour after the sentinel start. -/
theorem c4_sentinel_times (data : List Fuel.ChannelInfo) (ci : Fuel.ChannelInfo)
    (p : Fuel.ProgramData) (hci : ci ∈ data) (hp : p ∈ ci.programs)
    (ht : p.title ≠ "") :
    Fuel.programmeElem ci.channel_id ci.language p
        ∈ (Fuel.create_xmltv_output data).children ∧
    (Fuel.programmeElem ci.channel_id ci.language p).hasAttr "start" = true ∧
    (Fuel.programmeElem ci.channel_id ci.language p).hasAttr "stop" = true ∧
    (Fuel.programmeElem ci.channel_id ci.language p).hasAttr "channel" = true ∧
    titleText (Fuel.programmeElem ci.channel_id ci.language p) = p.title ∧
    (p.start = "" →
      (Fuel.programmeElem ci.channel_id ci.language p).get "start" "" = "20000101000000") ∧
    (p.stop = "" →
      (Fuel.programmeElem ci.channel_id ci.language p).get "stop" "" = "20000101010000") ∧
    wireDate "20000101000000" = "20000101".data ∧
    wireDate "20000101010000" = "20000101".data ∧
    wireTimeSecs "20000101010000" = wireTimeSecs "20000101000000" + 3600 := by
  refine ⟨?_, ?_, ?_, ?_, ?_, ?_, ?_, by decide, by decide, by decide⟩
  · show Fuel.programmeElem ci.channel_id ci.language p
      ∈ (data.flatMap (fun ci =>
          Fuel.channelElem ci.channel_id ci.display_name ::
            (ci.programs.filter (fun p => p.title != "")).map
              (Fuel.programmeElem ci.channel_id ci.language)))
    rw [List.mem_flatMap]
    refine ⟨ci, hci, List.mem_cons_of_mem _ ?_⟩
    exact List.mem_map_of_mem _ (List.mem_filter.mpr ⟨hp, bne_iff_ne.mpr ht⟩)
  · simp only [Fuel.programmeElem, Elem.hasAttr, Elem.attrs, List.any_cons, List.any_nil]
    simp
  · simp only [Fuel.programmeElem, Elem.hasAttr, Elem.attrs, List.any_cons, List.any_nil]
    simp
  · simp only [Fuel.programmeElem, Elem.hasAttr, Elem.attrs, List.any_cons, List.any_nil]
    simp
  · simp [titleText, Fuel.programmeElem, Elem.find, Elem.children, List.find?, Elem.tag,
      Elem.text]
  · intro hs
    simp [Fuel.programmeElem, Elem.get, hs, List.lookup]
  · intro hs
    simp [Fuel.programmeElem, Elem.get, hs, List.lookup]

/-- C4 (witness): a concrete titled program with empty start and stop is
emitted with the sentinel pair on the day 2000-01-01. -/
theorem c4_sentinel_times_witness :
    Fuel.programmeElem "c1" "en" { start := "", stop := "", title := "X", desc := "" }
        ∈ (Fuel.create_xmltv_output
            [{ channel_id := "c1", display_name := "C One", language := "en",
               programs := [{ start := "", stop := "", title := "X", desc := "" }] }]).children ∧
    (Fuel.programmeElem "c1" "en"
        { start := "", stop := "", title := "X", desc := "" }).hasAttr "start" = true ∧
    (Fuel.programmeElem "c1" "en"
        { start := "", stop := "", title := "X", desc := "" }).hasAttr "stop" = true ∧
    (Fuel.programmeElem "c1" "en"
        { start := "", stop := "", title := "X", desc := "" }).hasAttr "channel" = true ∧
    titleText (Fuel.programmeElem "c1" "en"
        { start := "", stop := "", title := "X", desc := "" }) = "X" ∧
    ((("" : String) = "") →
      (Fuel.programmeElem "c1" "en"
          { start := "", stop := "", title := "X", desc := "" }).get "start" ""
        = "20000101000000") ∧
    ((("" : String) = "") →
      (Fuel.programmeElem "c1" "en"
          { start := "", stop := "", title := "X", desc := "" }).get "stop" ""
        = "20000101010000") ∧
    wireDate "20000101000000" = "20000101".data ∧
    wireDate "20000101010000" = "20000101".data ∧
    wireTimeSecs "20000101010000" = wireTimeSecs "20000101000000" + 3600 :=
  c4_sentinel_times
    [{ channel_id := "c1", display_name := "C One", language := "en",
       programs := [{ start := "", stop := "", title := "X", desc := "" }] }]
    { channel_id := "c1", display_name := "C One", language := "en",
      programs := [{ start := "", stop := "", title := "X", desc := "" }] }
    { start := "", stop := "", title := "X", desc := "" }
    (by decide) (by decide) (by decide)

/-- C5 (counterexample): in the builder of scripts/gracenote.py — whose
episode-num guard tests is-not-None, not truthiness — a program record
with season 0 and episode 1 is emitted with two episode-num children
(0.1.0 and S0E1), refuting the claim that both builders suppress
episode-num tags for falsy season values. -/
theorem c5_season_zero_counterexample :
    ¬ (episodeNumTexts
        (Gracenote.programmeElem
          { start := "20240101000000", end_ := "20240101010000", channel_id := some "5",
            title := "T", episode_title := none, description := none,
            season := some 0, episode := some 1, rating := none, language := none }) = []) := by
  decide

/-- C5 (amended): a program with season 0 and episode 1 gets no
episode-num children from the builder of scripts/gracenote_to_xmltv.py,
whose truthiness guard treats season 0 as absent; the builder of
scripts/gracenote.py instead tests is-not-None and emits both encodings,
0.1.0 and S0E1, for the same program. -/
theorem c5_season_zero_amended :
    (∀ (p : GracenoteX.Prog), p.season = some 0 → p.episode = some 1 →
        (GracenoteX.create_xmltv [] [[p]]).children = [GracenoteX.programmeElem p] ∧
        episodeNumTexts (GracenoteX.programmeElem p) = []) ∧
    (∀ (q : Gracenote.ProgramEntry), q.season = some 0 → q.episode = some 1 →
        (Gracenote.create_xmltv [] [q]).children = [Gracenote.programmeElem q] ∧
        episodeNumTexts (Gracenote.programmeElem q) = ["0.1.0", "S0E1"]) := by
  constructor
  · intro p hs he
    constructor
    · rfl
    · simp only [GracenoteX.programmeElem, episodeNumTexts, Elem.children, hs, he, truthyInt]
      split_ifs <;> simp_all [List.filter_append, Elem.tag]
  · intro q hs he
    constructor
    · rfl
    · simp only [Gracenote.programmeElem, episodeNumTexts, Elem.children, hs, he]
      split_ifs <;> simp [List.filter_append, Elem.tag, Elem.text] <;> decide

/-- C5 (witness): the amended claim at one concrete season-0 episode-1
program for each builder. -/
theorem c5_season_zero_witness :
    ((GracenoteX.create_xmltv []
        [[{ start := "a", stop := "b", channel_id := some "5", title := "T",
            short_desc := none, rating := none, season := some 0, episode := some 1,
            episode_title := none, lang := none }]]).children
      = [GracenoteX.programmeElem
          { start := "a", stop := "b", channel_id := some "5", title := "T",
            short_desc := none, rating := none, season := some 0, episode := some 1,
            episode_title := none, lang := none }] ∧
     episodeNumTexts
        (GracenoteX.programmeElem
          { start := "a", stop := "b", channel_id := some "5", title := "T",
            short_desc := none, rating := none, season := some 0, episode := some 1,
            episode_title := none, lang := none }) = []) ∧
    ((Gracenote.create_xmltv []
        [{ start := "c", end_ := "d", channel_id := some "6", title := "U",
           episode_title := none, description := none, season := some 0,
           episode := some 1, rating := none, language := none }]).children
      = [Gracenote.programmeElem
          { start := "c", end_ := "d", channel_id := some "6", title := "U",
            episode_title := none, description := none, season := some 0,
            episode := some 1, rating := none, language := none }] ∧
     episodeNumTexts
        (Gracenote.programmeElem
          { start := "c", end_ := "d", channel_id := some "6", title := "U",
            episode_title := none, description := none, season := some 0,
            episode := some 1, rating := none, language := none }) = ["0.1.0", "S0E1"]) :=
  ⟨c5_season_zero_amended.1
      { start := "a", stop := "b", channel_id := some "5", title := "T",
        short_desc := none, rating := none, season := some 0, episode := some 1,
        episode_title := none, lang := none } rfl rfl,
   c5_season_zero_amended.2
      { start := "c", end_ := "d", channel_id := some "6", title := "U",
        episode_title := none, description := none, season := some 0,
        episode := some 1, rating := none, language := none } rfl rfl⟩

/-- Channel of the C6 end-to-end scenario: the simple channel id "5" is
the provider channel id, i.e. the gracenote site_id, with no canonical
xmltv_id. -/
def c6Channel : Gracenote.ChannelData :=
  { xmltv_id := none, site_id := some "5", name := some "Test", language := some "en" }

/-- Raw grid datum of the C6 end-to-end scenario. -/
def c6Grid : Gracenote.Grid :=
  [("2024-01-01",
    [{ startTime := some 1704100800, endTime := some 1704104400,
       program := some { title := some "News", episodeTitle := none, shortDesc := none,
                         season := some 2, episode := some 5 },
       rating := none }])]

/-- Program entry the C6 scenario produces, for a given machine-local
epoch renderer. -/
def c6Entry (fmt : Int → String) : Gracenote.ProgramEntry :=
  { start := fmt 1704100800, end_ := fmt 1704104400, channel_id := some "5",
    title := "News", episode_title := none, description := none,
    season := some 2, episode := some 5, rating := none, language := some "en" }

/-- C6: processing the channel id 5, name Test, language en against the
grid datum mapping 2024-01-01 to one program (epoch start 1704100800,
epoch end 1704104400, title News, season 2, episode 5), with 2024-01-01
inside the fetch window, yields a programme element with channel
attribute 5, title text News, and exactly the two episode-num texts
2.5.0 and S2E5 — for every machine-local epoch rendering fmt. -/
theorem c6_end_to_end (fmt : Int → String) (dates : List String)
    (hd : "2024-01-01" ∈ dates) :
    ∃ pr ∈ (Gracenote.create_xmltv [c6Channel]
        (Gracenote.process_channel fmt (fun _ => some c6Grid) c6Channel dates)).children,
      pr.tag = "programme" ∧ pr.get "channel" "" = "5" ∧ titleText pr = "News" ∧
      episodeNumTexts pr = ["2.5.0", "S2E5"] := by
  have hmem : c6Entry fmt
      ∈ Gracenote.process_channel fmt (fun _ => some c6Grid) c6Channel dates := by
    refine List.mem_flatMap.mpr ⟨"2024-01-01", hd, ?_⟩
    show c6Entry fmt ∈ [c6Entry fmt]
    exact List.mem_singleton.mpr rfl
  refine ⟨Gracenote.programmeElem (c6Entry fmt), ?_, rfl, ?_, ?_, ?_⟩
  · exact List.mem_append_right _ (List.mem_map_of_mem _ hmem)
  · simp [Gracenote.programmeElem, Elem.get, Elem.attrs, List.lookup, pyStr, c6Entry]
  · simp [titleText, Gracenote.programmeElem, Elem.find, Elem.children, List.find?, Elem.tag,
      Elem.text, c6Entry, Gracenote.langAttr]
  · simp [episodeNumTexts, Gracenote.programmeElem, Elem.children, c6Entry,
      Gracenote.langAttr, truthyStr, List.filter_append, Elem.tag, Elem.text]
    exact ⟨by decide, by decide⟩

/-- C6 (witness): the scenario at the singleton window 2024-01-01 and one
concrete epoch renderer. -/
theorem c6_end_to_end_witness :
    ∃ pr ∈ (Gracenote.create_xmltv [c6Channel]
        (Gracenote.process_channel (fun _ => "t") (fun _ => some c6Grid) c6Channel
          ["2024-01-01"])).children,
      pr.tag = "programme" ∧ pr.get "channel" "" = "5" ∧ titleText pr = "News" ∧
      episodeNumTexts pr = ["2.5.0", "S2E5"] :=
  c6_end_to_end (fun _ => "t") ["2024-01-01"] (by decide)

theorem filter_channel_programmesG (ps : List Gracenote.ProgramEntry) :
    (ps.map Gracenote.programmeElem).filter (fun c => c.tag == "channel") = [] := by
  induction ps with
  | nil => rfl
  | cons p t ih => simp [List.filter_cons, tag_programmeElemG, ih]

theorem filter_channel_programmesX (pss : List (List GracenoteX.Prog)) :
    ((pss.flatMap (fun l => l.map GracenoteX.programmeElem)).filter
      (fun c => c.tag == "channel")) = [] := by
  rw [List.filter_eq_nil_iff]
  intro e he
  rw [List.mem_flatMap] at he
  obtain ⟨l, _, he⟩ := he
  rw [List.mem_map] at he
  obtain ⟨p, _, rfl⟩ := he
  simp [tag_programmeElemX]

theorem filter_channelElemsX (channels : List GracenoteX.Channel) :
    (GracenoteX.channelElems channels).filter (fun c => c.tag == "channel")
      = (channels.filter (fun c => truthyStr (pyOr c.xmltv_id c.site_id))).map
          GracenoteX.channelElem := by
  induction channels with
  | nil => rfl
  | cons c cs ih =>
      have hcons : GracenoteX.channelElems (c :: cs)
          = (if truthyStr (pyOr c.xmltv_id c.site_id) = true
              then [GracenoteX.channelElem c] else [])
            ++ GracenoteX.channelElems cs := rfl
      rw [hcons, List.filter_append]
      by_cases h : truthyStr (pyOr c.xmltv_id c.site_id) = true
      · rw [if_pos h]
        simp [List.filter_cons, h, tag_channelElemX, ih]
      · have h2 : truthyStr (pyOr c.xmltv_id c.site_id) = false := by simpa using h
        rw [if_neg h]
        simp [List.filter_cons, h2, ih]

theorem filter_channelG (channels : List Gracenote.ChannelData) :
    ((channels.map Gracenote.channelElem).filter (fun c => c.tag == "channel"))
      = channels.map Gracenote.channelElem := by
  rw [List.filter_eq_self]
  intro e he
  rw [List.mem_map] at he
  obtain ⟨c, _, rfl⟩ := he
  simp [tag_channelElemG]

/-- C7 (counterexample): in scripts/gracenote.py a channel record with
neither xmltv_id nor site_id resolves to an absent id, yet the builder
still emits one channel element for it (with id stringified as None),
refuting the claim that every channel with an empty or absent resolved id
is skipped. -/
theorem c7_empty_id_counterexample :
    pyOr (Gracenote.ChannelData.xmltv_id
        { xmltv_id := none, site_id := none, name := none, language := none })
      (Gracenote.ChannelData.site_id
        { xmltv_id := none, site_id := none, name := none, language := none }) = none ∧
    ¬ (((Gracenote.create_xmltv
          [{ xmltv_id := none, site_id := none, name := none, language := none }]
          []).children.filter (fun c => c.tag == "channel")).length = 0) := by
  constructor
  · rfl
  · decide

/-- C7 (amended): the builder of scripts/gracenote_to_xmltv.py emits
channel elements exactly for the channels whose resolved
xmltv_id-or-site_id is truthy, in order; the builder of
scripts/gracenote.py emits a channel element for every channel record
unconditionally, absent ids included. -/
theorem c7_empty_id_amended :
    (∀ (channels : List GracenoteX.Channel) (all_programs : List (List GracenoteX.Prog)),
        (GracenoteX.create_xmltv channels all_programs).children.filter
            (fun c => c.tag == "channel")
          = (channels.filter (fun c => truthyStr (pyOr c.xmltv_id c.site_id))).map
              GracenoteX.channelElem) ∧
    (∀ (channels : List Gracenote.ChannelData) (programs : List Gracenote.ProgramEntry),
        (Gracenote.create_xmltv channels programs).children.filter
            (fun c => c.tag == "channel")
          = channels.map Gracenote.channelElem) := by
  constructor
  · intro channels all_programs
    show (GracenoteX.channelElems channels
        ++ all_programs.flatMap (fun l => l.map GracenoteX.programmeElem)).filter
          (fun c => c.tag == "channel") = _
    rw [List.filter_append, filter_channel_programmesX, List.append_nil,
      filter_channelElemsX]
  · intro channels programs
    show (channels.map Gracenote.channelElem
        ++ programs.map Gracenote.programmeElem).filter (fun c => c.tag == "channel") = _
    rw [List.filter_append, filter_channel_programmesG, List.append_nil, filter_channelG]

theorem hasAttr_langAttr (o : Option String) (t x : String) (cs : List Elem) :
    (Elem.mk t (Gracenote.langAttr o) x cs).hasAttr "lang" = truthyStr o := by
  cases o with
  | none => rfl
  | some s =>
      by_cases h : s ≠ ""
      · have hl : Gracenote.langAttr (some s) = [("lang", s)] := by
          rw [Gracenote.langAttr, if_pos h]
        rw [hl]
        simp only [Elem.hasAttr, Elem.attrs, List.any_cons, List.any_nil, truthyStr]
        simp [h]
      · have h0 : s = "" := by simpa using h
        subst h0
        rfl

/-- C8 (counterexample): in the builder of src/service/fuel/main.py the
lang attribute is set unconditionally, so a channel whose language is the
empty string still gets a lang attribute on its programme's title child,
refuting the claim that an empty language leaves title, sub-title and
desc without a lang attribute in every builder. -/
theorem c8_lang_attribute_counterexample :
    ¬ ((((Fuel.create_xmltv_output
          [{ channel_id := "c", display_name := "d", language := "",
             programs := [{ start := "s", stop := "t", title := "T",
                            desc := "" }] }]).children.filter
            (fun c => c.tag == "programme")).all
          (fun pr => pr.children.all (fun c => !(c.hasAttr "lang")))) = true) := by
  decide

/-- C8 (amended): in the builders of scripts/gracenote.py and
scripts/gracenote_to_xmltv.py the title, sub-title and desc children of a
programme carry a lang attribute exactly when the owning channel's
language is truthy; in the builder of src/service/fuel/main.py every
child of a programme — its title and its optional desc — carries a lang
attribute unconditionally, the empty language included (and no sub-title
is ever emitted there). -/
theorem c8_lang_attribute_amended :
    (∀ (p : Gracenote.ProgramEntry), ∀ c ∈ (Gracenote.programmeElem p).children,
        (c.tag == "title" || c.tag == "sub-title" || c.tag == "desc") = true →
        c.hasAttr "lang" = truthyStr p.language) ∧
    (∀ (p : GracenoteX.Prog), ∀ c ∈ (GracenoteX.programmeElem p).children,
        (c.tag == "title" || c.tag == "sub-title" || c.tag == "desc") = true →
        c.hasAttr "lang" = truthyStr p.lang) ∧
    (∀ (channel_id language : String) (p : Fuel.ProgramData),
        ((Fuel.programmeElem channel_id language p).children.all
          (fun c => c.hasAttr "lang")) = true) := by
  refine ⟨?_, ?_, ?_⟩
  · intro p c hc htag
    obtain ⟨st, en, cid, ti, et, de, se, ep, ra, la⟩ := p
    rcases se with _ | sv <;> rcases ep with _ | ev <;>
      simp only [Gracenote.programmeElem, Elem.children] at hc <;>
      split_ifs at hc <;>
      fin_cases hc <;>
      first
        | exact hasAttr_langAttr _ _ _ _
        | simp [Elem.tag] at htag
  · intro p c hc htag
    simp only [GracenoteX.programmeElem, Elem.children] at hc
    split_ifs at hc <;> fin_cases hc <;>
      first
        | exact hasAttr_langAttr _ _ _ _
        | simp [Elem.tag] at htag
  · intro channel_id language p
    simp only [Fuel.programmeElem, Elem.children]
    split_ifs <;> simp [List.all_cons, Elem.hasAttr, Elem.attrs]

/-- C8 (witness): the amended claim at a concrete title child with
language en, and at a concrete fuel program. -/
theorem c8_lang_attribute_witness :
    (Elem.mk "title" (Gracenote.langAttr (some "en")) "T" []).hasAttr "lang"
      = truthyStr (some "en") ∧
    ((Fuel.programmeElem "c" "en"
        { start := "s", stop := "t", title := "T", desc := "" }).children.all
      (fun c => c.hasAttr "lang")) = true :=
  ⟨c8_lang_attribute_amended.1
      { start := "s", end_ := "e", channel_id := some "1", title := "T",
        episode_title := none, description := none, season := none,
        episode := none, rating := none, language := some "en" }
      (Elem.mk "title" (Gracenote.langAttr (some "en")) "T" [])
      (List.mem_cons_self _ _)
      (by decide),
   c8_lang_attribute_amended.2.2 "c" "en" { start := "s", stop := "t", title := "T", desc := "" }⟩

/-- C9: for every programme-tag-shape element the extractor copies the
start and stop attribute strings into the record verbatim, the record is
among the extractor's results, and — whenever the copied fields are
non-empty, as pre-formatted wire strings are — the builder places them
byte-for-byte into the emitted programme's start and stop attributes, so
normalization passes canonical timestamps through unchanged. -/
theorem c9_canonical_passthrough (root : Elem) (language : String) (e : Elem)
    (he : e ∈ root.findallDesc "programme") :
    (Fuel.extractProgramme e).start = e.get "start" "" ∧
    (Fuel.extractProgramme e).stop = e.get "stop" "" ∧
    Fuel.extractProgramme e ∈ Fuel.parse_programs root language ∧
    (∀ (channel_id lang2 : String), (Fuel.extractProgramme e).start ≠ "" →
      (Fuel.extractProgramme e).stop ≠ "" →
      (Fuel.programmeElem channel_id lang2 (Fuel.extractProgramme e)).get "start" ""
          = e.get "start" "" ∧
      (Fuel.programmeElem channel_id lang2 (Fuel.extractProgramme e)).get "stop" ""
          = e.get "stop" "") := by
  refine ⟨rfl, rfl, ?_, ?_⟩
  · have h1 : ((root.findallDesc "programme").map Fuel.extractProgramme).isEmpty = false := by
      cases hfd : root.findallDesc "programme" with
      | nil => rw [hfd] at he; exact absurd he (List.not_mem_nil e)
      | cons a l => rfl
    have hp : Fuel.parse_programs root language
        = (root.findallDesc "programme").map Fuel.extractProgramme := by
      unfold Fuel.parse_programs
      simp [h1]
    rw [hp]
    exact List.mem_map_of_mem _ he
  · intro channel_id lang2 hs ht
    constructor
    · simp [Fuel.programmeElem, Elem.get, Elem.attrs, List.lookup, hs]
      rfl
    · simp [Fuel.programmeElem, Elem.get, Elem.attrs, List.lookup, ht]
      rfl

/-- C9 (witness): a concrete programme element with non-empty start and
stop attributes passes them through to the output verbatim. -/
theorem c9_canonical_passthrough_witness :
    Fuel.extractProgramme
        (Elem.mk "programme" [("start", "20240101000000"), ("stop", "20240101010000")] ""
          [Elem.mk "title" [] "A" []])
      ∈ Fuel.parse_programs
          (Elem.mk "tv" [] ""
            [Elem.mk "programme" [("start", "20240101000000"), ("stop", "20240101010000")] ""
              [Elem.mk "title" [] "A" []]]) "en" ∧
    (Fuel.programmeElem "c" "en"
        (Fuel.extractProgramme
          (Elem.mk "programme" [("start", "20240101000000"), ("stop", "20240101010000")] ""
            [Elem.mk "title" [] "A" []]))).get "start" ""
      = (Elem.mk "programme" [("start", "20240101000000"), ("stop", "20240101010000")] ""
          [Elem.mk "title" [] "A" []]).get "start" "" ∧
    (Fuel.programmeElem "c" "en"
        (Fuel.extractProgramme
          (Elem.mk "programme" [("start", "20240101000000"), ("stop", "20240101010000")] ""
            [Elem.mk "title" [] "A" []]))).get "stop" ""
      = (Elem.mk "programme" [("start", "20240101000000"), ("stop", "20240101010000")] ""
          [Elem.mk "title" [] "A" []]).get "stop" "" := by
  have h := c9_canonical_passthrough
    (Elem.mk "tv" [] ""
      [Elem.mk "programme" [("start", "20240101000000"), ("stop", "20240101010000")] ""
        [Elem.mk "title" [] "A" []]]) "en"
    (Elem.mk "programme" [("start", "20240101000000"), ("stop", "20240101010000")] ""
      [Elem.mk "title" [] "A" []])
    (List.mem_singleton.mpr rfl)
  have h4 := h.2.2.2 "c" "en" (by decide) (by decide)
  exact ⟨h.2.2.1, h4.1, h4.2⟩

/-- C10: in the tolerant EPG pipeline every programme element the builder
emits carries a non-empty title text, although the extractor admits
feed-item-shape candidates without a title child as records with an empty
title — the builder's emission-time filter removes every empty-title
candidate, so none reaches the output document. -/
theorem c10_emitted_titles_nonempty :
    (∀ (data : List Fuel.ChannelInfo), ∀ pr ∈ (Fuel.create_xmltv_output data).children,
        pr.tag = "programme" → titleText pr ≠ "") ∧
    (∀ (root : Elem) (language : String), ∀ item ∈ root.findallDesc "item",
        (root.findallDesc "programme").isEmpty = true → item.find "title" = none →
        Fuel.extractItem item ∈ Fuel.parse_programs root language ∧
        (Fuel.extractItem item).title = "") := by
  constructor
  · intro data pr hpr htag
    obtain ⟨ci, hci, hpr⟩ := List.mem_flatMap.mp hpr
    rcases List.mem_cons.mp hpr with rfl | hpr
    · simp [Fuel.channelElem, Elem.tag] at htag
    · obtain ⟨p, hpf, rfl⟩ := List.mem_map.mp hpr
      obtain ⟨hpp, hpt⟩ := List.mem_filter.mp hpf
      have h2 : p.title ≠ "" := bne_iff_ne.mp hpt
      have h3 : titleText (Fuel.programmeElem ci.channel_id ci.language p) = p.title := by
        simp [titleText, Fuel.programmeElem, Elem.find, Elem.children, List.find?, Elem.tag,
          Elem.text]
      rw [h3]
      exact h2
  · intro root language item hitem hprogs hfind
    constructor
    · have h2 : ((root.findallDesc "item").map Fuel.extractItem).isEmpty = false := by
        cases hfd : root.findallDesc "item" with
        | nil => rw [hfd] at hitem; exact absurd hitem (List.not_mem_nil item)
        | cons a l => rfl
      have hp : Fuel.parse_programs root language
          = (root.findallDesc "item").map Fuel.extractItem := by
        unfold Fuel.parse_programs
        rw [List.isEmpty_iff] at hprogs
        simp [hprogs, h2]
      rw [hp]
      exact List.mem_map_of_mem _ hitem
    · simp [Fuel.extractItem, hfind]

/-- C10 (witness): a concrete emitted programme has a non-empty title,
and a concrete titleless feed item is admitted with an empty title. -/
theorem c10_emitted_titles_nonempty_witness :
    titleText (Fuel.programmeElem "c" "en"
        { start := "", stop := "", title := "T", desc := "" }) ≠ "" ∧
    (Fuel.extractItem (Elem.mk "item" [] "" [])
        ∈ Fuel.parse_programs (Elem.mk "rss" [] "" [Elem.mk "item" [] "" []]) "en" ∧
      (Fuel.extractItem (Elem.mk "item" [] "" [])).title = "") := by
  constructor
  · exact c10_emitted_titles_nonempty.1
      [{ channel_id := "c", display_name := "d", language := "en",
         programs := [{ start := "", stop := "", title := "T", desc := "" }] }]
      (Fuel.programmeElem "c" "en" { start := "", stop := "", title := "T", desc := "" })
      (List.mem_cons_of_mem _ (List.mem_cons_self _ _)) rfl
  · exact c10_emitted_titles_nonempty.2
      (Elem.mk "rss" [] "" [Elem.mk "item" [] "" []]) "en" (Elem.mk "item" [] "" [])
      (List.mem_singleton.mpr rfl) (by decide) rfl
